import Mathlib

/-!
Verification of the billing-system core of `src/Bill.py` (a Streamlit +
SQLite invoicing form).  The embedding models:

* the working-memory line items (`st.session_state["invoice_items"]`,
  dicts built at lines 123-128),
* the totals block (lines 152-157),
* invoice-number generation `generate_invoice_number` (lines 69-84),
* the two SQLite tables `invoices` and `invoice_items` (lines 35-59) as a
  `Store` of row lists, and the Save / Delete button handlers
  (lines 168-208 and 346-361) as state-passing functions on `Store`.

Money amounts (`REAL` columns, Python floats) are modelled as `ℚ`,
quantities (`INTEGER`, `st.number_input` with `min_value=1, step=1`) as `ℕ`.
-/

namespace Billing

/-- Python's `str.strip()`: remove leading and trailing whitespace. -/
def strip (s : String) : String :=
  String.mk (((s.data.dropWhile Char.isWhitespace).reverse.dropWhile
    Char.isWhitespace).reverse)

/-- A working-memory line item: the dict appended at src/Bill.py:123-128,
`{"Product": product, "Quantity": qty, "Rate": rate, "Total": qty * rate}`.
The `total` field stores whatever was put there at add time. -/
structure LineItem where
  product : String
  quantity : Nat
  rate : ℚ
  total : ℚ
deriving DecidableEq, Repr

/-- The add-item form handler (src/Bill.py:119-128): a blank product name is
rejected with a warning (no change), otherwise the item is appended with
`Total = qty * rate`. -/
def addItem (items : List LineItem) (product : String) (qty : Nat) (rate : ℚ) :
    List LineItem :=
  if strip product = "" then items
  else items ++ [⟨product, qty, rate, (qty : ℚ) * rate⟩]

/-- The four displayed money amounts of the totals block. -/
structure Totals where
  subtotal : ℚ
  cgst : ℚ
  sgst : ℚ
  total : ℚ
deriving DecidableEq, Repr

/-- The totals block of src/Bill.py:152-157:
`subtotal = df["Total"].sum(); cgst = subtotal * 0.09; sgst = subtotal * 0.09;
total = subtotal + cgst + sgst`.  The source evaluates this block only under
the `len(items) > 0` guard of line 135; on the empty list the summation here
yields `0`, which is the behaviour §4.2 of the spec prescribes for the
calculator. -/
def computeTotals (items : List LineItem) : Totals :=
  let subtotal := (items.map LineItem.total).sum
  let cgst := subtotal * (9 / 100 : ℚ)
  let sgst := subtotal * (9 / 100 : ℚ)
  let total := subtotal + cgst + sgst
  ⟨subtotal, cgst, sgst, total⟩

/-- Modelled from the spec: §4.2 requires the Totals Calculator to return
all-zero totals on an empty item sequence without failing.  The source never
computes totals on an empty sequence (the block at src/Bill.py:152-157 sits
under the `len(items) > 0` guard of line 135), so this value is taken from
the spec's words. -/
def computeTotalsEmptySpec : Totals := ⟨0, 0, 0, 0⟩

/-- A row of the `invoices` table (src/Bill.py:35-48); the `id` autoincrement
column is represented by the row's position in `Store.invoices`. -/
structure InvoiceRow where
  invoice_no : String
  customer_name : String
  phone : String
  address : String
  date : String
  subtotal : ℚ
  cgst : ℚ
  sgst : ℚ
  total : ℚ
deriving DecidableEq, Repr

/-- A row of the `invoice_items` table (src/Bill.py:50-59). -/
structure ItemRow where
  invoice_no : String
  product : String
  quantity : Nat
  rate : ℚ
  total : ℚ
deriving DecidableEq, Repr

/-- The persistent SQLite database `database.db`: both tables, rows kept in
insertion (`id`) order. -/
structure Store where
  invoices : List InvoiceRow
  items : List ItemRow
deriving DecidableEq, Repr

/-- The freshly initialised database (`init_db` creates empty tables). -/
def emptyStore : Store := ⟨[], []⟩

/-- `SELECT COUNT(*) FROM invoices` (src/Bill.py:80). -/
def countInvoices (st : Store) : Nat := st.invoices.length

/-- The invoice-history query
`SELECT * FROM invoices ORDER BY id DESC` (src/Bill.py:277): newest first. -/
def listInvoices (st : Store) : List InvoiceRow := st.invoices.reverse

/-- `SELECT * FROM invoice_items WHERE invoice_no=?` (src/Bill.py:295-299). -/
def getItems (st : Store) (no : String) : List ItemRow :=
  st.items.filter (fun it => it.invoice_no == no)

/-- A calendar date as used by `datetime.today()` / `datetime.date`. -/
structure Date where
  year : Nat
  month : Nat
  day : Nat
deriving DecidableEq, Repr

/-- Python's `s[-2:]`: the last two characters of a string (the whole string
when it is shorter). -/
def lastTwo (s : String) : String := s.drop (s.length - 2)

/-- The financial-year label of src/Bill.py:73-78:
`f"{year-1}-{str(year)[-2:]}"` when `month < 4`, else
`f"{year}-{str(year+1)[-2:]}"`. -/
def fyString (d : Date) : String :=
  if d.month < 4 then
    toString (d.year - 1) ++ "-" ++ lastTwo (toString d.year)
  else
    toString d.year ++ "-" ++ lastTwo (toString (d.year + 1))

/-- Python's `f"{n:04d}"`: decimal rendering zero-padded to width 4. -/
def pad4 (n : Nat) : String :=
  let s := toString n
  String.mk (List.replicate (4 - s.length) '0') ++ s

/-- `generate_invoice_number` (src/Bill.py:69-84) with the database state
passed explicitly: it performs one `SELECT COUNT(*)` read and returns
`f"INV/{fy}/{serial:04d}"` together with the (untouched) database state. -/
def generateInvoiceNumberRun (d : Date) (st : Store) : String × Store :=
  let serial := countInvoices st + 1
  ("INV/" ++ fyString d ++ "/" ++ pad4 serial, st)

/-- The string returned by `generate_invoice_number`. -/
def generateInvoiceNumber (d : Date) (st : Store) : String :=
  (generateInvoiceNumberRun d st).1

/-- How a save attempt can fail: the explicit `st.error("Customer name
required")` validation branch (src/Bill.py:170-171), or the
`sqlite3.IntegrityError` raised by the `invoice_no TEXT UNIQUE` constraint
(src/Bill.py:38) when the header `INSERT` duplicates an invoice number. -/
inductive SaveError where
  | validationError
  | integrityError
deriving DecidableEq, Repr

/-- The Save Invoice button handler (src/Bill.py:168-208).  Validation: an
empty (after strip) customer name writes nothing.  Otherwise the header row
and one row per line item are inserted on one connection and committed
together (single `conn.commit()` at line 205), so the database either gains
the header and all its item rows or nothing: a header `INSERT` that violates
the `UNIQUE` constraint on `invoice_no` raises before anything is committed.
Returns the resulting database state and the error, if any. -/
def saveInvoice (st : Store) (invoice_no customer_name phone address date : String)
    (items : List LineItem) : Store × Option SaveError :=
  if strip customer_name = "" then
    (st, some .validationError)
  else if st.invoices.any (fun inv => inv.invoice_no == invoice_no) then
    (st, some .integrityError)
  else
    let t := computeTotals items
    ({ invoices := st.invoices ++
        [⟨invoice_no, customer_name, phone, address, date,
          t.subtotal, t.cgst, t.sgst, t.total⟩],
       items := st.items ++
        items.map (fun it => ⟨invoice_no, it.product, it.quantity, it.rate, it.total⟩) },
     none)

/-- What the Delete button handler reports.  The source handler
(src/Bill.py:346-361) unconditionally shows "Invoice Deleted Successfully";
`notFoundError` is the spec's taxonomy entry (§7) and is never produced by
the code. -/
inductive DeleteSignal where
  | deletedSuccessfully
  | notFoundError
deriving DecidableEq, Repr

/-- The Delete button handler (src/Bill.py:346-361): deletes the child
`invoice_items` rows first, then the parent `invoices` row, both keyed by
`invoice_no`, commits, and reports success. -/
def deleteInvoice (st : Store) (no : String) : Store × DeleteSignal :=
  ({ invoices := st.invoices.filter (fun inv => inv.invoice_no != no),
     items := st.items.filter (fun it => it.invoice_no != no) },
   .deletedSuccessfully)

/-- Database states reachable through the app's write operations, starting
from the freshly initialised database.  A save step carries the source's
UI gate: the Save button is only rendered when the working item list is
non-empty (the `len(items) > 0` guard at src/Bill.py:135). -/
inductive Reachable : Store → Prop where
  | init : Reachable emptyStore
  | save (st : Store) (no name phone addr dt : String) (its : List LineItem)
      (st' : Store) : Reachable st → its ≠ [] →
      saveInvoice st no name phone addr dt its = (st', none) → Reachable st'
  | del (st : Store) (no : String) : Reachable st →
      Reachable (deleteInvoice st no).1

/-- Store well-formedness: every persisted header's amounts agree with its
persisted item rows (subtotal is the sum of the item `total` columns, the
taxes are 9% each, the grand total is their sum), every header has at least
one item row, and every item row has a parent header. -/
def StoreWF (st : Store) : Prop :=
  (∀ inv ∈ st.invoices,
      inv.subtotal = ((getItems st inv.invoice_no).map ItemRow.total).sum ∧
      inv.cgst = inv.subtotal * (9 / 100 : ℚ) ∧
      inv.sgst = inv.subtotal * (9 / 100 : ℚ) ∧
      inv.total = inv.subtotal + inv.cgst + inv.sgst ∧
      getItems st inv.invoice_no ≠ []) ∧
  (∀ it ∈ st.items, ∃ inv ∈ st.invoices, inv.invoice_no = it.invoice_no)

/-- The date used by the concrete scenarios below: April 1 2024, giving
financial year `2024-25`. -/
def demoDate : Date := ⟨2024, 4, 1⟩

/-- A one-item working invoice: 2 pens at rate 10, line total 20. -/
def demoItems : List LineItem := [⟨"Pen", 2, 10, 20⟩]

/-- The database after saving one invoice (number `INV/2024-25/0001`, which
is what `generate_invoice_number` yields on an empty database at
`demoDate`). -/
def demoStore1 : Store :=
  (saveInvoice emptyStore "INV/2024-25/0001" "Alice" "98" "Addr" "2024-04-01"
    demoItems).1

/-- The database after a second save (number `INV/2024-25/0002`). -/
def demoStore2 : Store :=
  (saveInvoice demoStore1 "INV/2024-25/0002" "Bob" "97" "Addr2" "2024-04-02"
    demoItems).1

/-- The database after deleting the first invoice: one invoice persisted,
numbered `INV/2024-25/0002`. -/
def demoStore3 : Store := (deleteInvoice demoStore2 "INV/2024-25/0001").1

/-- Unpacking a successful save: the customer name was non-blank, the
invoice number was fresh, and the resulting database is the input database
plus the new header row and the new item rows. -/
theorem saveInvoice_ok {st st' : Store} {no name phone addr dt : String}
    {its : List LineItem}
    (h : saveInvoice st no name phone addr dt its = (st', none)) :
    strip name ≠ "" ∧ (∀ inv ∈ st.invoices, inv.invoice_no ≠ no) ∧
    st' = { invoices := st.invoices ++
              [⟨no, name, phone, addr, dt, (computeTotals its).subtotal,
                (computeTotals its).cgst, (computeTotals its).sgst,
                (computeTotals its).total⟩],
            items := st.items ++
              its.map (fun it =>
                ⟨no, it.product, it.quantity, it.rate, it.total⟩) } := by
  by_cases h1 : strip name = ""
  · simp [saveInvoice, h1] at h
  · by_cases h2 : st.invoices.any (fun inv => inv.invoice_no == no) = true
    · simp [saveInvoice, h1, h2] at h
    · refine ⟨h1, ?_, ?_⟩
      · intro inv hm heq
        exact h2 (List.any_eq_true.mpr ⟨inv, hm, by simp [heq]⟩)
      · simp [saveInvoice, h1, h2] at h
        exact h.symm

/-- A successful save appends exactly one header row. -/
theorem saveInvoice_ok_count {st st' : Store} {no name phone addr dt : String}
    {its : List LineItem}
    (h : saveInvoice st no name phone addr dt its = (st', none)) :
    countInvoices st' = countInvoices st + 1 := by
  obtain ⟨-, -, h3⟩ := saveInvoice_ok h
  subst h3
  simp [countInvoices]

/-- Deleting one invoice number does not change the item rows of any other
invoice number. -/
theorem getItems_delete {no y : String} (st : Store) (h : y ≠ no) :
    getItems (deleteInvoice st no).1 y = getItems st y := by
  simp only [getItems, deleteInvoice, List.filter_filter]
  apply List.filter_congr
  intro it _
  by_cases hy : it.invoice_no = y
  · subst hy
    simp [bne_iff_ne, h]
  · simp [hy]

/-- Item rows inserted by a save all carry the new invoice number, so a
lookup for a different number does not see them. -/
theorem filter_newRows_ne {no y : String} (its : List LineItem) (h : y ≠ no) :
    (its.map (fun it =>
        (⟨no, it.product, it.quantity, it.rate, it.total⟩ : ItemRow))).filter
      (fun it => it.invoice_no == y) = [] := by
  rw [List.filter_eq_nil_iff]
  intro r hr
  obtain ⟨it, -, rfl⟩ := List.mem_map.mp hr
  simp [Ne.symm h]

/-- A lookup for the new invoice number sees exactly the inserted rows. -/
theorem filter_newRows_eq {no : String} (its : List LineItem) :
    (its.map (fun it =>
        (⟨no, it.product, it.quantity, it.rate, it.total⟩ : ItemRow))).filter
      (fun it => it.invoice_no == no) =
    its.map (fun it => (⟨no, it.product, it.quantity, it.rate, it.total⟩ : ItemRow)) := by
  rw [List.filter_eq_self]
  intro r hr
  obtain ⟨it, -, rfl⟩ := List.mem_map.mp hr
  simp

/-- C1: for every non-empty item sequence whose stored line totals were
built as quantity × rate (which is how the add-item handler builds them),
the totals block returns subtotal = Σ quantity × rate, cgst = sgst
= 0.09 × subtotal, and total = subtotal + cgst + sgst = subtotal × 1.18. -/
theorem compute_totals_correct (items : List LineItem) (_hne : items ≠ [])
    (ht : ∀ it ∈ items, it.total = (it.quantity : ℚ) * it.rate) :
    (computeTotals items).subtotal
        = (items.map (fun it => (it.quantity : ℚ) * it.rate)).sum ∧
    (computeTotals items).cgst = (0.09 : ℚ) * (computeTotals items).subtotal ∧
    (computeTotals items).sgst = (0.09 : ℚ) * (computeTotals items).subtotal ∧
    (computeTotals items).total = (computeTotals items).subtotal
        + (computeTotals items).cgst + (computeTotals items).sgst ∧
    (computeTotals items).total = (computeTotals items).subtotal * (1.18 : ℚ) := by
  have hsub : (computeTotals items).subtotal
      = (items.map (fun it => (it.quantity : ℚ) * it.rate)).sum :=
    congrArg List.sum (List.map_congr_left ht)
  refine ⟨hsub, ?_, ?_, rfl, ?_⟩
  · show (items.map LineItem.total).sum * (9 / 100 : ℚ)
        = (0.09 : ℚ) * (items.map LineItem.total).sum
    rw [mul_comm]
    norm_num
  · show (items.map LineItem.total).sum * (9 / 100 : ℚ)
        = (0.09 : ℚ) * (items.map LineItem.total).sum
    rw [mul_comm]
    norm_num
  · show (items.map LineItem.total).sum
          + (items.map LineItem.total).sum * (9 / 100 : ℚ)
          + (items.map LineItem.total).sum * (9 / 100 : ℚ)
        = (items.map LineItem.total).sum * (1.18 : ℚ)
    norm_num
    ring

/-- Witness for C1 at a concrete item list (2 pens at rate 10). -/
theorem compute_totals_correct_witness :
    (computeTotals demoItems).subtotal
        = (demoItems.map (fun it => (it.quantity : ℚ) * it.rate)).sum ∧
    (computeTotals demoItems).total
        = (computeTotals demoItems).subtotal * (1.18 : ℚ) := by
  have ht : ∀ it ∈ demoItems, it.total = (it.quantity : ℚ) * it.rate := by
    intro it hit
    simp only [demoItems, List.mem_singleton] at hit
    subst hit
    norm_num
  exact ⟨(compute_totals_correct demoItems (by decide) ht).1,
         (compute_totals_correct demoItems (by decide) ht).2.2.2.2⟩

/-- C6: on the empty item sequence the totals computation returns the
all-zero totals the spec prescribes, without failing. -/
theorem compute_totals_empty :
    computeTotals [] = computeTotalsEmptySpec ∧
    (computeTotals []).subtotal = 0 ∧ (computeTotals []).cgst = 0 ∧
    (computeTotals []).sgst = 0 ∧ (computeTotals []).total = 0 := by
  refine ⟨?_, ?_, ?_, ?_, ?_⟩ <;> norm_num [computeTotals, computeTotalsEmptySpec]

/-- C3: the financial-year label is `<startYear>-<last two digits of the end
year>`, with start year = the date's year when the month is April or later
and the previous year otherwise; March 15 2024 gives `2023-24` and
April 1 2024 gives `2024-25`. -/
theorem financial_year_label (d : Date) :
    (4 ≤ d.month →
      fyString d = toString d.year ++ "-" ++ lastTwo (toString (d.year + 1))) ∧
    (d.month < 4 →
      fyString d = toString (d.year - 1) ++ "-" ++ lastTwo (toString d.year)) ∧
    fyString ⟨2024, 3, 15⟩ = "2023-24" ∧
    fyString ⟨2024, 4, 1⟩ = "2024-25" := by
  refine ⟨?_, ?_, by decide, by decide⟩
  · intro h
    unfold fyString
    rw [if_neg (by omega)]
  · intro h
    unfold fyString
    rw [if_pos h]

/-- Witness for C3 at the two dates named by the claim. -/
theorem financial_year_label_witness :
    fyString ⟨2024, 4, 1⟩
      = toString (2024 : Nat) ++ "-" ++ lastTwo (toString (2024 + 1 : Nat)) ∧
    fyString ⟨2024, 3, 15⟩
      = toString (2024 - 1 : Nat) ++ "-" ++ lastTwo (toString (2024 : Nat)) :=
  ⟨(financial_year_label ⟨2024, 4, 1⟩).1 (by decide),
   (financial_year_label ⟨2024, 3, 15⟩).2.1 (by decide)⟩

/-- C2: the generated invoice number is `INV/<FY>/<NNNN>` where `NNNN` is
the count of persisted invoices plus one, zero-padded to four digits; on an
empty database the serial is `0001`, and after one successful save the next
call yields `0002`. -/
theorem next_invoice_number (d : Date) (st st' : Store)
    (no name phone addr dt : String) (its : List LineItem) :
    generateInvoiceNumber d st
        = "INV/" ++ fyString d ++ "/" ++ pad4 (countInvoices st + 1) ∧
    (countInvoices st = 0 →
      generateInvoiceNumber d st = "INV/" ++ fyString d ++ "/" ++ "0001") ∧
    (countInvoices st = 0 →
      saveInvoice st no name phone addr dt its = (st', none) →
      generateInvoiceNumber d st' = "INV/" ++ fyString d ++ "/" ++ "0002") := by
  refine ⟨rfl, ?_, ?_⟩
  · intro h
    show "INV/" ++ fyString d ++ "/" ++ pad4 (countInvoices st + 1) = _
    rw [h, show pad4 (0 + 1) = "0001" from by decide]
  · intro h hs
    have hc := saveInvoice_ok_count hs
    rw [h] at hc
    show "INV/" ++ fyString d ++ "/" ++ pad4 (countInvoices st' + 1) = _
    rw [hc, show pad4 (0 + 1 + 1) = "0002" from by decide]

/-- Witness for C2: serial `0001` on the empty database, serial `0002`
after the concrete save that produced `demoStore1`. -/
theorem next_invoice_number_witness :
    generateInvoiceNumber demoDate emptyStore
      = "INV/" ++ fyString demoDate ++ "/" ++ "0001" ∧
    generateInvoiceNumber demoDate demoStore1
      = "INV/" ++ fyString demoDate ++ "/" ++ "0002" :=
  ⟨(next_invoice_number demoDate emptyStore emptyStore "" "" "" "" "" []).2.1 rfl,
   (next_invoice_number demoDate emptyStore demoStore1 "INV/2024-25/0001"
      "Alice" "98" "Addr" "2024-04-01" demoItems).2.2 rfl
      (Prod.ext rfl (by decide))⟩

/-- C8: the numbering routine is a pure read: it returns the database state
unchanged (both tables), and a second call on that state and the same date
returns the same invoice number. -/
theorem generate_invoice_number_pure (d : Date) (st : Store) :
    (generateInvoiceNumberRun d st).2 = st ∧
    (generateInvoiceNumberRun d st).2.invoices = st.invoices ∧
    (generateInvoiceNumberRun d st).2.items = st.items ∧
    (generateInvoiceNumberRun d ((generateInvoiceNumberRun d st).2)).1
      = (generateInvoiceNumberRun d st).1 :=
  ⟨rfl, rfl, rfl, rfl⟩

/-- C4: saving with a blank (empty or whitespace-only) customer name fails
with the validation error and leaves the invoice history unchanged. -/
theorem save_blank_customer_rejected (st : Store)
    (no name phone addr dt : String) (its : List LineItem)
    (h : strip name = "") :
    (saveInvoice st no name phone addr dt its).2
        = some SaveError.validationError ∧
    listInvoices (saveInvoice st no name phone addr dt its).1
        = listInvoices st := by
  constructor <;> simp [saveInvoice, h]

/-- Witness for C4 with an empty and a whitespace-only customer name. -/
theorem save_blank_customer_rejected_witness :
    (saveInvoice emptyStore "INV/2024-25/0001" "" "98" "A" "2024-04-01"
        demoItems).2 = some SaveError.validationError ∧
    (saveInvoice emptyStore "INV/2024-25/0001" "   " "98" "A" "2024-04-01"
        demoItems).2 = some SaveError.validationError ∧
    listInvoices (saveInvoice emptyStore "INV/2024-25/0001" "   " "98" "A"
        "2024-04-01" demoItems).1 = listInvoices emptyStore :=
  ⟨(save_blank_customer_rejected emptyStore _ "" _ _ _ _ (by decide)).1,
   (save_blank_customer_rejected emptyStore _ "   " _ _ _ _ (by decide)).1,
   (save_blank_customer_rejected emptyStore _ "   " _ _ _ _ (by decide)).2⟩

/-- `getItems` only reads the `invoice_items` table. -/
theorem getItems_mk (A : List InvoiceRow) (B : List ItemRow) (y : String) :
    getItems ⟨A, B⟩ y = B.filter (fun it => it.invoice_no == y) := rfl

/-- Saving a fresh, non-empty invoice preserves store well-formedness. -/
theorem storeWF_save (st : Store) (no name phone addr dt : String)
    (its : List LineItem) (hwf : StoreWF st) (hne : its ≠ [])
    (hfresh : ∀ inv ∈ st.invoices, inv.invoice_no ≠ no) :
    StoreWF { invoices := st.invoices ++
                [⟨no, name, phone, addr, dt, (computeTotals its).subtotal,
                  (computeTotals its).cgst, (computeTotals its).sgst,
                  (computeTotals its).total⟩],
              items := st.items ++ its.map (fun it =>
                ⟨no, it.product, it.quantity, it.rate, it.total⟩) } := by
  have hempty : st.items.filter (fun it => it.invoice_no == no) = [] := by
    rw [List.filter_eq_nil_iff]
    intro it hm hbeq
    have hit : it.invoice_no = no := by simpa using hbeq
    obtain ⟨inv', hinv', he⟩ := hwf.2 it hm
    exact hfresh inv' hinv' (he.trans hit)
  constructor
  · intro inv hm
    rcases List.mem_append.mp hm with hmem | hnew
    · obtain ⟨c1, c2, c3, c4, c5⟩ := hwf.1 inv hmem
      have hy : inv.invoice_no ≠ no := hfresh inv hmem
      have hgi : getItems ⟨st.invoices ++
            [⟨no, name, phone, addr, dt, (computeTotals its).subtotal,
              (computeTotals its).cgst, (computeTotals its).sgst,
              (computeTotals its).total⟩],
            st.items ++ its.map (fun it =>
              ⟨no, it.product, it.quantity, it.rate, it.total⟩)⟩ inv.invoice_no
          = getItems st inv.invoice_no := by
        rw [getItems_mk, List.filter_append, filter_newRows_ne its hy,
          List.append_nil]
        rfl
      rw [hgi]
      exact ⟨c1, c2, c3, c4, c5⟩
    · rw [List.mem_singleton] at hnew
      subst hnew
      have hgi : getItems ⟨st.invoices ++
            [⟨no, name, phone, addr, dt, (computeTotals its).subtotal,
              (computeTotals its).cgst, (computeTotals its).sgst,
              (computeTotals its).total⟩],
            st.items ++ its.map (fun it =>
              ⟨no, it.product, it.quantity, it.rate, it.total⟩)⟩ no
          = its.map (fun it => ⟨no, it.product, it.quantity, it.rate, it.total⟩) := by
        rw [getItems_mk, List.filter_append, filter_newRows_eq its, hempty,
          List.nil_append]
      refine ⟨?_, rfl, rfl, rfl, ?_⟩
      · show (computeTotals its).subtotal = _
        rw [hgi, List.map_map]
        rfl
      · rw [hgi]
        simp [hne]
  · intro it hm
    rcases List.mem_append.mp hm with hmem | hnew
    · obtain ⟨inv', hinv', he⟩ := hwf.2 it hmem
      exact ⟨inv', List.mem_append_left _ hinv', he⟩
    · obtain ⟨x, -, rfl⟩ := List.mem_map.mp hnew
      exact ⟨_, List.mem_append_right _ (List.mem_singleton_self _), rfl⟩

/-- Deleting an invoice number preserves store well-formedness. -/
theorem storeWF_delete (st : Store) (no : String) (hwf : StoreWF st) :
    StoreWF (deleteInvoice st no).1 := by
  constructor
  · intro inv hm
    have hmf := List.mem_filter.mp hm
    have hy : inv.invoice_no ≠ no := by
      simpa [bne_iff_ne] using hmf.2
    obtain ⟨c1, c2, c3, c4, c5⟩ := hwf.1 inv hmf.1
    rw [getItems_delete st hy]
    exact ⟨c1, c2, c3, c4, c5⟩
  · intro it hm
    have hmf := List.mem_filter.mp hm
    have hy : it.invoice_no ≠ no := by
      simpa [bne_iff_ne] using hmf.2
    obtain ⟨inv', hinv', he⟩ := hwf.2 it hmf.1
    refine ⟨inv', List.mem_filter.mpr ⟨hinv', ?_⟩, he⟩
    simp [bne_iff_ne, he, hy]

/-- C7: every database state reachable through the app's operations is
well-formed: each persisted header's subtotal is the sum of its persisted
item line totals, its taxes and grand total satisfy the totals invariant,
each header has its items, and no item row is orphaned — no failure leaves
a partially-written invoice visible. -/
theorem reachable_no_partial_invoice (st : Store) (h : Reachable st) :
    StoreWF st := by
  induction h with
  | init =>
      exact ⟨fun inv hm => absurd hm (by simp [emptyStore]),
             fun it hm => absurd hm (by simp [emptyStore])⟩
  | save st no name phone addr dt its st' hr hne heq ih =>
      obtain ⟨-, hfresh, h3⟩ := saveInvoice_ok heq
      subst h3
      exact storeWF_save st no name phone addr dt its ih hne hfresh
  | del st no hr ih =>
      exact storeWF_delete st no ih

/-- Witness for C7: the state reached by save, save, delete is
well-formed. -/
theorem reachable_no_partial_invoice_witness : StoreWF demoStore3 :=
  reachable_no_partial_invoice demoStore3
    (Reachable.del demoStore2 "INV/2024-25/0001"
      (Reachable.save demoStore1 "INV/2024-25/0002" "Bob" "97" "Addr2"
        "2024-04-02" demoItems demoStore2
        (Reachable.save emptyStore "INV/2024-25/0001" "Alice" "98" "Addr"
          "2024-04-01" demoItems demoStore1 Reachable.init (by decide)
          (Prod.ext rfl (by decide)))
        (by decide) (Prod.ext rfl (by decide))))

/-- C5 counterexample: the Delete handler run on an invoice number that is
not persisted reports "Invoice Deleted Successfully" — it never signals
NotFoundError — while leaving the database unchanged. -/
theorem delete_unknown_signals_success :
    (deleteInvoice emptyStore "INV/2024-25/0001").2
        = DeleteSignal.deletedSuccessfully ∧
    (deleteInvoice emptyStore "INV/2024-25/0001").2
        ≠ DeleteSignal.notFoundError ∧
    (deleteInvoice emptyStore "INV/2024-25/0001").1 = emptyStore :=
  ⟨rfl, by decide, rfl⟩

/-- C5 (amended): deleting an invoice removes its header from the listed
history and leaves its item lookup empty (children deleted with the
parent); deleting an unknown number leaves both tables unchanged, but the
handler signals success, never NotFoundError. -/
theorem delete_invoice_spec (st : Store) (no : String) :
    (∀ inv ∈ listInvoices (deleteInvoice st no).1, inv.invoice_no ≠ no) ∧
    getItems (deleteInvoice st no).1 no = [] ∧
    (deleteInvoice st no).2 = DeleteSignal.deletedSuccessfully ∧
    ((∀ inv ∈ st.invoices, inv.invoice_no ≠ no) →
      (∀ it ∈ st.items, it.invoice_no ≠ no) →
      (deleteInvoice st no).1 = st) := by
  refine ⟨?_, ?_, rfl, ?_⟩
  · intro inv hm
    rw [listInvoices, List.mem_reverse] at hm
    simpa [bne_iff_ne] using (List.mem_filter.mp hm).2
  · rw [getItems_mk]
    simp only [deleteInvoice]
    rw [List.filter_filter, List.filter_eq_nil_iff]
    intro it hm
    by_cases hy : it.invoice_no = no <;> simp [hy]
  · intro h1 h2
    show Store.mk _ _ = st
    rw [List.filter_eq_self.mpr (fun inv hm => by simp [bne_iff_ne, h1 inv hm]),
        List.filter_eq_self.mpr (fun it hm => by simp [bne_iff_ne, h2 it hm])]

/-- Witness for C5: deleting the persisted invoice of `demoStore1` empties
its item lookup; deleting a number `demoStore1` does not hold leaves it
unchanged. -/
theorem delete_invoice_spec_witness :
    getItems (deleteInvoice demoStore1 "INV/2024-25/0001").1
        "INV/2024-25/0001" = [] ∧
    (deleteInvoice demoStore1 "INV/9999-00/0999").1 = demoStore1 :=
  ⟨(delete_invoice_spec demoStore1 "INV/2024-25/0001").2.1,
   (delete_invoice_spec demoStore1 "INV/9999-00/0999").2.2.2
     (by decide) (by decide)⟩

/-- C9: numbering alone does not guarantee uniqueness.  After saving two
invoices and deleting the first, the generated number equals the number of
an invoice still persisted, and actually saving under it fails with the
storage-level integrity error from the `UNIQUE` constraint. -/
theorem numbering_not_unique :
    ∃ st : Store, Reachable st ∧
      generateInvoiceNumber demoDate st ∈ st.invoices.map InvoiceRow.invoice_no ∧
      (saveInvoice st (generateInvoiceNumber demoDate st) "Carol" "96" "Addr3"
          "2024-04-03" demoItems).2 = some SaveError.integrityError := by
  refine ⟨demoStore3, ?_, by decide, by decide⟩
  exact Reachable.del demoStore2 "INV/2024-25/0001"
    (Reachable.save demoStore1 "INV/2024-25/0002" "Bob" "97" "Addr2"
      "2024-04-02" demoItems demoStore2
      (Reachable.save emptyStore "INV/2024-25/0001" "Alice" "98" "Addr"
        "2024-04-01" demoItems demoStore1 Reachable.init (by decide)
        (Prod.ext rfl (by decide)))
      (by decide) (Prod.ext rfl (by decide)))

/-- C10: a save that succeeded cannot be repeated with the same session
invoice number: the second attempt hits the `UNIQUE` constraint on
`invoice_no` and fails with the storage-level integrity error (not a
validation error), writing nothing. -/
theorem save_twice_integrity_error (st st' : Store)
    (no name phone addr dt : String) (its : List LineItem)
    (h : saveInvoice st no name phone addr dt its = (st', none)) :
    saveInvoice st' no name phone addr dt its
      = (st', some SaveError.integrityError) := by
  obtain ⟨h1, h2, h3⟩ := saveInvoice_ok h
  subst h3
  have hmem : (Store.mk (st.invoices ++
      [⟨no, name, phone, addr, dt, (computeTotals its).subtotal,
        (computeTotals its).cgst, (computeTotals its).sgst,
        (computeTotals its).total⟩])
      (st.items ++ its.map (fun it =>
        ⟨no, it.product, it.quantity, it.rate, it.total⟩))).invoices.any
      (fun inv => inv.invoice_no == no) = true := by
    refine List.any_eq_true.mpr
      ⟨_, List.mem_append_right _ (List.mem_singleton_self _), ?_⟩
    simp
  simp only [saveInvoice, if_neg h1, if_pos hmem]

/-- Witness for C10: re-saving the draft persisted in `demoStore1` under
its session invoice number fails with the integrity error. -/
theorem save_twice_integrity_error_witness :
    saveInvoice demoStore1 "INV/2024-25/0001" "Alice" "98" "Addr"
        "2024-04-01" demoItems
      = (demoStore1, some SaveError.integrityError) :=
  save_twice_integrity_error emptyStore demoStore1 "INV/2024-25/0001"
    "Alice" "98" "Addr" "2024-04-01" demoItems (Prod.ext rfl (by decide))

end Billing
